import Mathlib

/-!
# Near-Earth-Objects: verification of the specification against the source

A shallow embedding of the repository's Python modules (`models.py`,
`extract.py`, `filters.py`, `write.py`) together with proofs settling the
specification's claims about record construction, predicate filters, the
query engine, the result limiter and the row-oriented export.

Python's dynamic values are embedded as the inductive `Value`; Python floats
as `PyFloat` (a rational together with an explicit NaN marker, enough to
model the float values this program manipulates and their IEEE comparison
behaviour on NaN); Python exceptions as `Except PyError`.
-/

namespace NEO

/-- A Python float as this program uses it: either NaN (the explicit
missing-value marker produced for unknown diameters) or a rational value.
The program only ever produces finite floats or NaN, never infinities. -/
inductive PyFloat where
  | nan : PyFloat
  | val : ℚ → PyFloat
deriving DecidableEq, Repr

/-- IEEE equality on floats: any comparison with NaN is false. -/
def PyFloat.eqF : PyFloat → PyFloat → Bool
  | .val a, .val b => decide (a = b)
  | _, _ => false

/-- IEEE greater-or-equal: any comparison with NaN is false. -/
def PyFloat.geF : PyFloat → PyFloat → Bool
  | .val a, .val b => decide (b ≤ a)
  | _, _ => false

/-- IEEE less-or-equal: any comparison with NaN is false. -/
def PyFloat.leF : PyFloat → PyFloat → Bool
  | .val a, .val b => decide (a ≤ b)
  | _, _ => false

/-- The Python exceptions that arise in the embedded code. In the source,
`UnsupportedCriterionError` subclasses `NotImplementedError`
(filters.py lines 20-21). -/
inductive PyError where
  | typeError : PyError
  | valueError : PyError
  | unsupportedCriterion : PyError
deriving DecidableEq, Repr

/-- A dynamic Python value as passed through the keyword-argument mappings
this program constructs records from: `none` is Python `None` (in
particular the result of `dict.get` on an absent key). -/
inductive Value where
  | none : Value
  | str : String → Value
  | num : PyFloat → Value
  | bool : Bool → Value
deriving DecidableEq, Repr

/-- Numeric value of a list of decimal digit characters. -/
def digitsToNat (cs : List Char) : Nat :=
  cs.foldl (fun n c => 10 * n + (c.toNat - 48)) 0

/-- Split a character list at every occurrence of the separator (the
character-level counterpart of Python's `str.split(sep)` on the pieces
between separators; an empty input gives one empty piece). -/
def splitOnChar (sep : Char) : List Char → List (List Char)
  | [] => [[]]
  | c :: rest =>
      match splitOnChar sep rest with
      | [] => if c = sep then [[], []] else [[c]]
      | g :: gs => if c = sep then [] :: g :: gs else (c :: g) :: gs

/-- Strip leading and trailing whitespace from a character list (Python's
`str.strip()`). -/
def trimChars (cs : List Char) : List Char :=
  ((cs.dropWhile Char.isWhitespace).reverse.dropWhile Char.isWhitespace).reverse

/-- Python's `float(s)` on a string, restricted to the plain decimal
literals this data set contains: optional surrounding whitespace, an
optional sign, then digits with an optional decimal point (at least one
digit overall). Exponents, underscores, `inf` and `nan` literals do not
occur in the data and are not modelled (they would parse in Python but
never reach this program). Returns `none` where Python raises ValueError. -/
def parseFloatStr (s : String) : Option ℚ :=
  let t := trimChars s.data
  let neg : Bool := match t with | c :: _ => c = '-' | [] => false
  let body : List Char :=
    match t with
    | c :: rest => if c = '-' ∨ c = '+' then rest else t
    | [] => t
  let signed : ℚ → ℚ := fun q => if neg then -q else q
  match splitOnChar '.' body with
  | [i] =>
      if i.length > 0 && i.all Char.isDigit then
        some (signed (digitsToNat i))
      else none
  | [i, f] =>
      if (i.length + f.length > 0) && i.all Char.isDigit
          && f.all Char.isDigit then
        some (signed ((digitsToNat i : ℚ)
          + (digitsToNat f : ℚ) / (10 ^ f.length : ℚ)))
      else none
  | _ => none

/-- Python's builtin `float(value)` on a dynamic value: `None` raises
TypeError, a string parses or raises ValueError, a float passes through,
and a bool converts to 0.0 or 1.0. -/
def pyFloatOf : Value → Except PyError PyFloat
  | .none => .error .typeError
  | .str s =>
      match parseFloatStr s with
      | some q => .ok (.val q)
      | Option.none => .error .valueError
  | .num x => .ok x
  | .bool b => .ok (.val (if b then 1 else 0))

/-- A calendar date, as Python's `datetime.date`. -/
structure Date where
  year : Nat
  month : Nat
  day : Nat
deriving DecidableEq, Repr

/-- Calendar order on dates (Python's `date` comparison):
lexicographic on (year, month, day). -/
def dateLe (a b : Date) : Bool :=
  decide (a.year < b.year) ||
    (decide (a.year = b.year) &&
      (decide (a.month < b.month) ||
        (decide (a.month = b.month) && decide (a.day ≤ b.day))))

/-- A calendar date-time at minute precision, as the `datetime` values this
program builds (the source's date-time text has no seconds). -/
structure DateTime where
  date : Date
  hour : Nat
  minute : Nat
deriving DecidableEq, Repr

/-- Parse a list of decimal digit characters; `none` on the empty list or
any non-digit character. -/
def parseNat (cs : List Char) : Option Nat :=
  if cs.length > 0 && cs.all Char.isDigit then some (digitsToNat cs)
  else none

/-- Modelled from the spec: `cd_to_datetime` lives in the repository's
`helpers` module, which is not among the provided sources. Per the spec it
parses the source's date-time text format `YYYY-MM-DD HH:MM` (no seconds)
into a calendar date-time value; a `None` argument raises TypeError and
malformed text raises ValueError, as Python's `datetime.strptime` would. -/
def cd_to_datetime : Value → Except PyError DateTime
  | .str s =>
      match splitOnChar ' ' s.data with
      | [d, t] =>
          match splitOnChar '-' d, splitOnChar ':' t with
          | [ys, ms, ds], [hs, mins] =>
              match parseNat ys, parseNat ms, parseNat ds,
                  parseNat hs, parseNat mins with
              | some y, some mo, some dd, some h, some mi =>
                  .ok ⟨⟨y, mo, dd⟩, h, mi⟩
              | _, _, _, _, _ => .error .valueError
          | _, _ => .error .valueError
      | _ => .error .valueError
  | _ => .error .typeError

/-- Left-pad the decimal representation of `n` with zeros to width 2. -/
def pad2 (n : Nat) : String :=
  if n < 10 then "0" ++ toString n else toString n

/-- Left-pad the decimal representation of `n` with zeros to width 4. -/
def pad4 (n : Nat) : String :=
  if n < 10 then "000" ++ toString n
  else if n < 100 then "00" ++ toString n
  else if n < 1000 then "0" ++ toString n
  else toString n

/-- Modelled from the spec: `datetime_to_str` lives in the repository's
`helpers` module, which is not among the provided sources. Per the spec it
formats a date-time as `YYYY-MM-DD HH:MM` (minute precision, no timezone
suffix). -/
def datetime_to_str (t : DateTime) : String :=
  pad4 t.date.year ++ "-" ++ pad2 t.date.month ++ "-" ++ pad2 t.date.day
    ++ " " ++ pad2 t.hour ++ ":" ++ pad2 t.minute

/-! ## models.py: record construction -/

/-- The keyword-argument mapping `**info` supplied to
`NearEarthObject.__init__`: each field is `info.get(key)`, so an absent key
is `Value.none`. Keys other than these four are ignored by the constructor
and not modelled. -/
structure NeoInfo where
  name : Value
  designation : Value
  diameter : Value
  hazardous : Value
deriving DecidableEq, Repr

/-- A constructed `NearEarthObject` (models.py lines 36-48). The
`approaches` collection (initialized empty, populated later by the
`NEODatabase` constructor) carries no information at construction and no
claim depends on it, so it is not a field here. -/
structure NearEarthObject where
  name : Value
  designation : Value
  diameter : PyFloat
  hazardous : Value
deriving DecidableEq, Repr

/-- `NearEarthObject.isDigitorNone` (models.py lines 50-65): try
`float(value)`; a ValueError becomes NaN, but any other exception — in
particular the TypeError from `float(None)` — propagates. -/
def NearEarthObject.isDigitorNone (value : Value) : Except PyError PyFloat :=
  match pyFloatOf value with
  | .ok f => .ok f
  | .error .valueError => .ok .nan
  | .error e => .error e

/-- `NearEarthObject.__init__` (models.py lines 36-48): the name is
replaced by `None` exactly when it equals the one-space string or the
empty string (the Python test is membership in the tuple `(' ', '')`);
the diameter goes through `isDigitorNone`. -/
def NearEarthObject.init (info : NeoInfo) : Except PyError NearEarthObject :=
  let name :=
    if info.name = .str " " ∨ info.name = .str "" then Value.none
    else info.name
  match NearEarthObject.isDigitorNone info.diameter with
  | .error e => .error e
  | .ok diameter =>
      .ok { name := name, designation := info.designation,
            diameter := diameter, hazardous := info.hazardous }

/-- The keyword-argument mapping `**info` supplied to
`CloseApproach.__init__`; an absent key is `Value.none`. -/
structure CAInfo where
  designation : Value
  time : Value
  distance : Value
  velocity : Value
  neo : Value
deriving DecidableEq, Repr

/-- A constructed `CloseApproach` (models.py lines 110-121). The
`velocity` and `neo` fields are stored exactly as supplied (no coercion in
the constructor), hence their dynamic `Value` type. -/
structure CloseApproach where
  hidden_designation : Value
  time : DateTime
  distance : PyFloat
  velocity : Value
  neo : Value
deriving DecidableEq, Repr

/-- The distance coercion in `CloseApproach.__init__` (models.py lines
117-119): `if type(self.distance) is not float: self.distance =
float(self.distance)` — a float passes through untouched, anything else
goes through `float(...)` with its exceptions uncaught. -/
def coerceDistance : Value → Except PyError PyFloat
  | .num x => .ok x
  | v => pyFloatOf v

/-- `CloseApproach.__init__` (models.py lines 110-121): the time field is
parsed by `cd_to_datetime`, the distance field is coerced to float, and
the velocity and neo fields are stored as supplied, with no coercion and
no exception handling anywhere in the constructor. -/
def CloseApproach.init (info : CAInfo) : Except PyError CloseApproach :=
  match cd_to_datetime info.time with
  | .error e => .error e
  | .ok time =>
      match coerceDistance info.distance with
      | .error e => .error e
      | .ok distance =>
          .ok { hidden_designation := info.designation, time := time,
                distance := distance, velocity := info.velocity,
                neo := info.neo }

/-! ## The post-association, well-typed view

After loading, every `NearEarthObject` built by `load_neos` (extract.py
lines 34-39) has a string designation, an optional string name (`row['name']
or None` plus the constructor normalization), a float-or-NaN diameter and a
bool hazardous flag (`row['pha'] == 'Y'`); every `CloseApproach` built by
`load_approaches` (extract.py lines 66-71) has a float distance and a float
velocity; and after the `NEODatabase` association pass each close approach
holds a reference to its NEO. The predicate filters (filters.py) and the
exporters (write.py) operate on records of this shape, embedded below as
`Neo` and `Approach`. -/

/-- A near-Earth object in the steady state the filters and exporters see:
`name` is `Option String` (Python `None` for a missing name), `diameter`
may be NaN for an unknown diameter. -/
structure Neo where
  designation : String
  name : Option String
  diameter : PyFloat
  hazardous : Bool
deriving DecidableEq, Repr

/-- A close approach in the steady state the filters and exporters see,
with its associated NEO resolved. -/
structure Approach where
  time : DateTime
  distance : PyFloat
  velocity : PyFloat
  neo : Neo
deriving DecidableEq, Repr

/-! ## filters.py: predicate filters, create_filters, limit -/

/-- The comparison operators used by the filters: `operator.eq`,
`operator.ge`, `operator.le` (filters.py line 17). -/
inductive CmpOp where
  | eq : CmpOp
  | ge : CmpOp
  | le : CmpOp
deriving DecidableEq, Repr

/-- The class of a filter object: the base `AttributeFilter` (whose `get`
raises) or one of its five concrete subclasses (filters.py lines 83-193). -/
inductive FClass where
  | attrF : FClass
  | dateF : FClass
  | distF : FClass
  | veloF : FClass
  | diamF : FClass
  | hazF : FClass
deriving DecidableEq, Repr

/-- A value extracted from an approach or held as a filter's reference
value: a calendar date, a float, or a bool. -/
inductive FVal where
  | date : Date → FVal
  | num : PyFloat → FVal
  | bool : Bool → FVal
deriving DecidableEq, Repr

/-- An `AttributeFilter` instance: its (sub)class, its comparator and its
reference value (filters.py lines 41-53). -/
structure AttributeFilter where
  cls : FClass
  op : CmpOp
  value : FVal
deriving DecidableEq, Repr

/-- The `get` classmethod dispatched on the filter's class: the base class
raises `UnsupportedCriterionError` (filters.py line 69); `DateFilter`
returns `approach.time.date()` (line 103), `DistFilter` the distance
(line 125), `VeloFilter` the velocity (line 147), `DiamFilter` the linked
NEO's diameter (line 170), `HazFilter` the linked NEO's hazardous flag
(line 193). -/
def AttributeFilter.get : FClass → Approach → Except PyError FVal
  | .attrF, _ => .error .unsupportedCriterion
  | .dateF, a => .ok (.date a.time.date)
  | .distF, a => .ok (.num a.distance)
  | .veloF, a => .ok (.num a.velocity)
  | .diamF, a => .ok (.num a.neo.diameter)
  | .hazF, a => .ok (.bool a.neo.hazardous)

/-- Python's comparison semantics on the value pairs this program can
form: `==` between distinct types is False (no exception), while ordered
comparison between incompatible types raises TypeError. Floats compare by
IEEE rules (NaN compares false), dates by calendar order, bools as the
integers 0 and 1. -/
def applyOp : CmpOp → FVal → FVal → Except PyError Bool
  | .eq, .date a, .date b => .ok (decide (a = b))
  | .eq, .num a, .num b => .ok (a.eqF b)
  | .eq, .bool a, .bool b => .ok (a == b)
  | .eq, _, _ => .ok false
  | .ge, .date a, .date b => .ok (dateLe b a)
  | .ge, .num a, .num b => .ok (a.geF b)
  | .ge, .bool a, .bool b => .ok (b ≤ a)
  | .le, .date a, .date b => .ok (dateLe a b)
  | .le, .num a, .num b => .ok (a.leF b)
  | .le, .bool a, .bool b => .ok (a ≤ b)
  | _, _, _ => .error .typeError

/-- `AttributeFilter.__call__` (filters.py lines 55-57): evaluate
`self.op(self.get(approach), self.value)`; an exception in `get`
propagates. -/
def AttributeFilter.call (f : AttributeFilter) (a : Approach) :
    Except PyError Bool :=
  match AttributeFilter.get f.cls a with
  | .error e => .error e
  | .ok x => applyOp f.op x f.value

/-- `create_filters` (filters.py lines 196-272): one filter per non-None
criterion, in the insertion order of the `filter_mappings` dict — date,
start_date, end_date, distance_min, distance_max, velocity_min,
velocity_max, diameter_min, diameter_max, hazardous — with the operator
pairing given there (date→eq, start_date→ge, end_date→le, min→ge, max→le,
hazardous→eq). -/
def create_filters (date : Option Date)
    (start_date : Option Date)
    (end_date : Option Date)
    (distance_min : Option PyFloat)
    (distance_max : Option PyFloat)
    (velocity_min : Option PyFloat)
    (velocity_max : Option PyFloat)
    (diameter_min : Option PyFloat)
    (diameter_max : Option PyFloat)
    (hazardous : Option Bool) : List AttributeFilter :=
  (match date with
    | some d => [⟨.dateF, .eq, .date d⟩] | Option.none => []) ++
  (match start_date with
    | some d => [⟨.dateF, .ge, .date d⟩] | Option.none => []) ++
  (match end_date with
    | some d => [⟨.dateF, .le, .date d⟩] | Option.none => []) ++
  (match distance_min with
    | some x => [⟨.distF, .ge, .num x⟩] | Option.none => []) ++
  (match distance_max with
    | some x => [⟨.distF, .le, .num x⟩] | Option.none => []) ++
  (match velocity_min with
    | some x => [⟨.veloF, .ge, .num x⟩] | Option.none => []) ++
  (match velocity_max with
    | some x => [⟨.veloF, .le, .num x⟩] | Option.none => []) ++
  (match diameter_min with
    | some x => [⟨.diamF, .ge, .num x⟩] | Option.none => []) ++
  (match diameter_max with
    | some x => [⟨.diamF, .le, .num x⟩] | Option.none => []) ++
  (match hazardous with
    | some b => [⟨.hazF, .eq, .bool b⟩] | Option.none => [])

/-- The loop body of `limit` for non-zero `n` (filters.py lines 289-295):
each iteration first pulls the next item from the source, then breaks if
`count >= n`, else yields the item and increments `count`. The result pairs
the yielded items with the number of items actually pulled from the source
(a pull attempt on an exhausted source obtains no item and counts 0). -/
def limitLoop {α : Type} : List α → Int → Int → List α × Nat
  | [], _, _ => ([], 0)
  | x :: rest, n, count =>
      if count ≥ n then ([], 1)
      else
        let r := limitLoop rest n (count + 1)
        (x :: r.1, r.2 + 1)

/-- `limit` (filters.py lines 276-295), run to exhaustion by its consumer:
for `n` None or 0 it is `yield from iterator` (every item yielded, every
item pulled); otherwise the counting loop above. Returns (items yielded,
items pulled from the source). -/
def limit {α : Type} (xs : List α) (n : Option Int) : List α × Nat :=
  match n with
  | Option.none => (xs, xs.length)
  | some m => if m = 0 then (xs, xs.length) else limitLoop xs m 0

/-! ## NEODatabase.query -/

/-- Whether a filter evaluation succeeded with the result `True`. -/
def isOkTrue : Except PyError Bool → Bool
  | .ok true => true
  | _ => false

/-- Whether every filter in the collection returns true on the approach
(the conjunctive match test; an approach with zero filters matches
vacuously). -/
def matchesAll (fs : List AttributeFilter) (a : Approach) : Bool :=
  fs.all (fun f => isOkTrue (f.call a))

/-- Modelled from the spec: the `NEODatabase.query` method lives in the
repository's database module, which is not among the provided sources. Per
the spec it walks the database's close-approach collection in its original
load order and yields exactly those approaches for which every filter in
the collection returns true (logical AND, vacuously true for zero
filters). -/
def query (approaches : List Approach) (fs : List AttributeFilter) :
    List Approach :=
  match approaches with
  | [] => []
  | a :: rest => if matchesAll fs a then a :: query rest fs else query rest fs

/-! ## write.py: the row-oriented (CSV) export -/

/-- A cell value as it sits in the serialization dictionaries before the
CSV writer stringifies it. -/
inductive Cell where
  | str : String → Cell
  | num : PyFloat → Cell
  | bool : Bool → Cell
deriving DecidableEq, Repr

/-- Python truthiness of a cell: an empty string is falsy, a nonzero or
NaN float is truthy, a bool is itself. -/
def Cell.truthy : Cell → Bool
  | .str s => !s.isEmpty
  | .num x => !(x = .val 0 : Bool) -- NaN is truthy in Python
  | .bool b => b

/-- `CloseApproach.serialize` (models.py lines 151-157) on a steady-state
approach, as an ordered key/value mapping. In the source `datetime_utc` is
`datetime_to_str(self.time) if self.time else ""`; a datetime object is
always truthy, so the formatted time is always used. -/
def serializeApproach (a : Approach) : List (String × Cell) :=
  [("datetime_utc", .str (datetime_to_str a.time)),
   ("distance_au", .num a.distance),
   ("velocity_km_s", .num a.velocity)]

/-- `NearEarthObject.serialize` (models.py lines 86-93) on a steady-state
NEO: a falsy designation or name (None or the empty string) serializes as
the empty string; the diameter is never None in the steady state, so the
`float('nan')` fallback branch is dead and the diameter is written as is
(possibly NaN). -/
def serializeNeo (n : Neo) : List (String × Cell) :=
  [("designation", .str (if n.designation.isEmpty then "" else n.designation)),
   ("name", .str (match n.name with
     | some s => if s.isEmpty then "" else s
     | Option.none => "")),
   ("diameter_km", .num n.diameter),
   ("potentially_hazardous", .bool n.hazardous)]

/-- First-match lookup in an ordered key/value mapping. -/
def lookupCell (content : List (String × Cell)) (k : String) : Option Cell :=
  match content with
  | [] => Option.none
  | (k2, v) :: rest => if k2 = k then some v else lookupCell rest k

/-- Replace the value at a key in an ordered key/value mapping (Python
dict item assignment on a present key). -/
def setCell (content : List (String × Cell)) (k : String) (v : Cell) :
    List (String × Cell) :=
  content.map (fun p => if p.1 = k then (k, v) else p)

/-- The fixed CSV header (write.py line 28). -/
def fieldnames : List String :=
  ["datetime_utc", "distance_au", "velocity_km_s", "designation", "name",
   "diameter_km", "potentially_hazardous"]

/-- The per-approach body of `write_to_csv` (write.py lines 38-49): merge
the two serialization dictionaries (their key sets are disjoint, so the
`{**a, **b}` merge is concatenation), re-assign `name` to
`content.get("name", "")` (the key is always present, so this keeps the
serialized name), replace `potentially_hazardous` by the string "True" or
"False" according to the truthiness of its value, and let the dict writer
emit the cells in `fieldnames` order. Returns the ordered row. -/
def writeRow (a : Approach) : List (String × Cell) :=
  let content := serializeApproach a ++ serializeNeo a.neo
  let content := setCell content "name"
    ((lookupCell content "name").getD (.str ""))
  let content := setCell content "potentially_hazardous"
    (.str (if ((lookupCell content "potentially_hazardous").getD
        (.bool false)).truthy then "True" else "False"))
  fieldnames.map (fun k => (k, (lookupCell content k).getD (.str "")))

/-! ## Theorems -/

/-- Exact behaviour of the counting loop of `limit`, for any starting
count not past the cap: it yields the next `n - count` items and pulls one
item more than it yields whenever the source still has one. -/
theorem limitLoop_spec {α : Type} (xs : List α) (n : Int) :
    ∀ count : Int, count ≤ n →
      limitLoop xs n count =
        (xs.take (n - count).toNat, min ((n - count).toNat + 1) xs.length) := by
  induction xs with
  | nil =>
      intro count _
      simp [limitLoop]
  | cons x rest ih =>
      intro count h
      by_cases hc : count ≥ n
      · have heq : count = n := le_antisymm h hc
        subst heq
        have h0 : (count - count).toNat = 0 := by omega
        simp only [limitLoop, if_pos hc, h0, List.take_zero, List.length_cons,
          Prod.mk.injEq]
        exact ⟨trivial, by omega⟩
      · have hlt : count < n := lt_of_not_ge hc
        have ih2 := ih (count + 1) (by omega)
        have hk : (n - count).toNat = (n - (count + 1)).toNat + 1 := by omega
        simp only [limitLoop, if_neg hc, ih2, hk, List.take_succ_cons,
          List.length_cons, Prod.mk.injEq]
        exact ⟨trivial, by omega⟩

/-- C2 counterexample: over the five-element source `[0, 1, 2, 3, 4]` with
cap `n = 2`, `limit` yields the first two elements but pulls three elements
from the source — one more than it yields — refuting the claim that it
pulls no element of the source beyond those yielded. -/
theorem limit_pulls_past_cap :
    (limit [0, 1, 2, 3, 4] (some 2)).1 = [0, 1] ∧
    (limit [0, 1, 2, 3, 4] (some 2)).2 = 3 ∧
    ¬((limit [0, 1, 2, 3, 4] (some 2)).2 ≤
        (limit [0, 1, 2, 3, 4] (some 2)).1.length) := by
  refine ⟨rfl, rfl, by decide⟩

/-- C2 (amended): for every positive cap `n`, `limit` yields exactly the
first `min(n, length)` elements of the source in order, and pulls
`min(n + 1, length)` elements — that is, exactly one element beyond those
yielded whenever the source holds more than `n` elements; for `n = None`
or `n = 0` it yields the source unchanged. -/
theorem limit_spec (α : Type) (xs : List α) (n : Int) (h : 0 < n) :
    limit xs (some n) =
      (xs.take n.toNat, min (n.toNat + 1) xs.length) ∧
    limit xs Option.none = (xs, xs.length) ∧
    limit xs (some 0) = (xs, xs.length) := by
  refine ⟨?_, rfl, by simp [limit]⟩
  have hn : n ≠ 0 := by omega
  have := limitLoop_spec xs n 0 (by omega)
  simpa [limit, hn] using this

/-- C2 witness: `limit_spec` at the five-element source and cap 2. -/
theorem limit_spec_witness :
    limit [0, 1, 2, 3, 4] (some 2) = ([0, 1], 3) ∧
    limit [0, 1, 2, 3, 4] Option.none = ([0, 1, 2, 3, 4], 5) := by
  have h := limit_spec Nat [0, 1, 2, 3, 4] 2 (by decide)
  exact ⟨h.1, h.2.1⟩

/-- C10: for every negative cap `n`, `limit` yields no items at all; on a
non-empty source it still pulls one element before stopping (the loop
pulls first and only then checks the cap), while on an empty source it
pulls none. -/
theorem limit_negative (α : Type) (x : α) (xs : List α) (n : Int)
    (h : n < 0) :
    limit (x :: xs) (some n) = ([], 1) ∧
    limit ([] : List α) (some n) = ([], 0) := by
  have hn : n ≠ 0 := by omega
  have hc : (0 : Int) ≥ n := by omega
  constructor
  · simp [limit, hn, limitLoop, if_pos hc]
  · simp [limit, hn, limitLoop]

/-- C10 witness: `limit_negative` at the two-element source `[5, 6]` and
cap `-1`. -/
theorem limit_negative_witness :
    limit [5, 6] (some (-1)) = ([], 1) ∧
    limit ([] : List Nat) (some (-1)) = ([], 0) :=
  limit_negative Nat 5 [6] (-1) (by decide)

/-- C1 counterexample: a raw attribute mapping with no diameter value
(Python `None`, as `info.get('diameter')` yields for an absent key) makes
`NearEarthObject.__init__` raise a TypeError — `float(None)` raises
TypeError and `isDigitorNone` catches only ValueError — refuting the claim
that construction never raises on account of the diameter field. -/
theorem neo_missing_diameter_raises :
    NearEarthObject.init
        ⟨Value.str "Eros", Value.str "433", Value.none, Value.bool false⟩ =
      .error .typeError := by
  rfl

/-- C1 (amended): when the supplied diameter value is a string,
construction never raises on account of the diameter: an unparseable
string yields the NaN marker and a parseable one yields its float value.
When the diameter value is missing (`None`), construction instead raises
an uncaught TypeError. -/
theorem neo_diameter_spec :
    (∀ (info : NeoInfo) (s : String), info.diameter = .str s →
      ∃ neo, NearEarthObject.init info = .ok neo ∧
        neo.diameter = ((parseFloatStr s).map PyFloat.val).getD PyFloat.nan) ∧
    (∀ info : NeoInfo, info.diameter = Value.none →
      NearEarthObject.init info = .error .typeError) := by
  constructor
  · intro info s hs
    cases hp : parseFloatStr s with
    | none =>
        refine ⟨{ name := if info.name = .str " " ∨ info.name = .str ""
                    then Value.none else info.name,
                  designation := info.designation, diameter := PyFloat.nan,
                  hazardous := info.hazardous }, ?_, by simp [hp]⟩
        simp [NearEarthObject.init, NearEarthObject.isDigitorNone,
          pyFloatOf, hs, hp]
    | some q =>
        refine ⟨{ name := if info.name = .str " " ∨ info.name = .str ""
                    then Value.none else info.name,
                  designation := info.designation,
                  diameter := PyFloat.val q,
                  hazardous := info.hazardous }, ?_, by simp [hp]⟩
        simp [NearEarthObject.init, NearEarthObject.isDigitorNone,
          pyFloatOf, hs, hp]
  · intro info h0
    simp [NearEarthObject.init, NearEarthObject.isDigitorNone, pyFloatOf, h0]

/-- C1 witness: `neo_diameter_spec` applied to concrete mappings carrying
the unparseable diameter string "abc", the parseable diameter string
"5.3", and a missing diameter. -/
theorem neo_diameter_spec_witness :
    (∃ neo, NearEarthObject.init
        ⟨Value.none, Value.str "433", Value.str "abc", Value.bool false⟩ =
          .ok neo ∧
      neo.diameter = ((parseFloatStr "abc").map PyFloat.val).getD
        PyFloat.nan) ∧
    (∃ neo, NearEarthObject.init
        ⟨Value.none, Value.str "433", Value.str "5.3", Value.bool false⟩ =
          .ok neo ∧
      neo.diameter = ((parseFloatStr "5.3").map PyFloat.val).getD
        PyFloat.nan) ∧
    NearEarthObject.init
        ⟨Value.none, Value.str "433", Value.none, Value.bool false⟩ =
      .error .typeError :=
  ⟨neo_diameter_spec.1 _ "abc" rfl, neo_diameter_spec.1 _ "5.3" rfl,
   neo_diameter_spec.2 _ rfl⟩

/-- C3 counterexample: `CloseApproach.__init__` succeeds on a mapping
whose velocity value is the unparseable string "fast": the velocity is
stored as that string, uncoerced, and no error is raised — refuting the
claim that the constructor coerces velocity to float and raises when it
cannot. -/
theorem ca_velocity_not_coerced :
    CloseApproach.init
        ⟨Value.str "433", Value.str "2020-01-01 13:45",
         Value.num (PyFloat.val 1), Value.str "fast", Value.none⟩ =
      .ok ⟨Value.str "433", ⟨⟨2020, 1, 1⟩, 13, 45⟩, PyFloat.val 1,
           Value.str "fast", Value.none⟩ := by
  rfl

/-- C3 (amended): the constructor coerces only the distance field — every
successful construction has a float distance obtained by coercion, and a
distance that cannot be coerced makes construction raise — while the
velocity field is stored exactly as supplied, with no coercion and no
error (the caller `load_approaches` is what coerces velocity before
construction). -/
theorem ca_init_spec :
    (∀ (info : CAInfo) (ca : CloseApproach), CloseApproach.init info = .ok ca →
      coerceDistance info.distance = .ok ca.distance ∧
        ca.velocity = info.velocity) ∧
    (∀ (info : CAInfo) (e : PyError), coerceDistance info.distance = .error e →
      ∃ e2, CloseApproach.init info = .error e2) := by
  constructor
  · intro info ca h
    cases h1 : cd_to_datetime info.time with
    | error e => simp [CloseApproach.init, h1] at h
    | ok t =>
        cases h2 : coerceDistance info.distance with
        | error e => simp [CloseApproach.init, h1, h2] at h
        | ok d =>
            simp [CloseApproach.init, h1, h2] at h
            simp [← h, h2]
  · intro info e h2
    cases h1 : cd_to_datetime info.time with
    | error e3 => exact ⟨e3, by simp [CloseApproach.init, h1]⟩
    | ok t => exact ⟨e, by simp [CloseApproach.init, h1, h2]⟩

/-- C3 witness: `ca_init_spec` applied to a concrete successful
construction (velocity supplied as a string and kept) and to a concrete
mapping whose distance is missing, which fails to construct. -/
theorem ca_init_spec_witness :
    (coerceDistance (Value.num (PyFloat.val 1)) = .ok (PyFloat.val 1) ∧
      (Value.str "fast") = Value.str "fast") ∧
    ∃ e2, CloseApproach.init
        ⟨Value.str "433", Value.str "2020-01-01 13:45", Value.none,
         Value.num (PyFloat.val 2), Value.none⟩ = .error e2 := by
  constructor
  · exact ca_init_spec.1
      ⟨Value.str "433", Value.str "2020-01-01 13:45",
       Value.num (PyFloat.val 1), Value.str "fast", Value.none⟩
      ⟨Value.str "433", ⟨⟨2020, 1, 1⟩, 13, 45⟩, PyFloat.val 1,
       Value.str "fast", Value.none⟩ (by rfl)
  · exact ca_init_spec.2
      ⟨Value.str "433", Value.str "2020-01-01 13:45", Value.none,
       Value.num (PyFloat.val 2), Value.none⟩ .typeError (by rfl)

/-- C4 counterexample: a name value of two spaces — a whitespace-only
string — is kept verbatim by `NearEarthObject.__init__` (the normalization
test is membership in the tuple of the one-space string and the empty
string), and in particular is not the value "no name"; nothing in the
constructor ever produces the string "no name". -/
theorem neo_whitespace_name_kept :
    NearEarthObject.init
        ⟨Value.str "  ", Value.str "433", Value.str "", Value.bool false⟩ =
      .ok ⟨Value.str "  ", Value.str "433", PyFloat.nan, Value.bool false⟩ ∧
    ("  ".data.all (fun c => decide (c = ' '))) = true ∧
    Value.str "  " ≠ Value.str "no name" := by
  refine ⟨by rfl, by decide, by decide⟩

/-- C4 (amended): a name value equal to the empty string or to the
one-space string is normalized to Python `None` (rendered as an absent
name downstream, not as the string "no name"); every other name value —
including other whitespace-only strings — is stored unchanged. -/
theorem neo_name_normalization :
    (∀ (info : NeoInfo) (neo : NearEarthObject),
      (info.name = .str "" ∨ info.name = .str " ") →
      NearEarthObject.init info = .ok neo → neo.name = Value.none) ∧
    (∀ (info : NeoInfo) (neo : NearEarthObject),
      info.name ≠ .str "" → info.name ≠ .str " " →
      NearEarthObject.init info = .ok neo → neo.name = info.name) := by
  constructor
  · intro info neo hn h
    have hcond : (info.name = .str " " ∨ info.name = .str "") := hn.symm
    cases hd : NearEarthObject.isDigitorNone info.diameter with
    | error e => simp [NearEarthObject.init, hd] at h
    | ok d =>
        simp [NearEarthObject.init, hd, if_pos hcond] at h
        simp [← h]
  · intro info neo h1 h2 h
    have hcond : ¬(info.name = .str " " ∨ info.name = .str "") := by
      intro hc
      cases hc with
      | inl hc => exact h2 hc
      | inr hc => exact h1 hc
    cases hd : NearEarthObject.isDigitorNone info.diameter with
    | error e => simp [NearEarthObject.init, hd] at h
    | ok d =>
        simp [NearEarthObject.init, hd, if_neg hcond] at h
        simp [← h]

/-- C4 witness: `neo_name_normalization` applied to a concrete mapping
with the empty-string name (normalized to `None`) and to a concrete
mapping with the two-space name (kept verbatim). -/
theorem neo_name_normalization_witness :
    (⟨Value.none, Value.str "433", PyFloat.nan,
        Value.bool false⟩ : NearEarthObject).name = Value.none ∧
    (⟨Value.str "  ", Value.str "433", PyFloat.nan,
        Value.bool false⟩ : NearEarthObject).name =
      (⟨Value.str "  ", Value.str "433", Value.str "",
          Value.bool false⟩ : NeoInfo).name :=
  ⟨neo_name_normalization.1
      ⟨Value.str "", Value.str "433", Value.str "", Value.bool false⟩ _
      (Or.inl rfl) (by rfl),
   neo_name_normalization.2
      ⟨Value.str "  ", Value.str "433", Value.str "", Value.bool false⟩ _
      (by decide) (by decide) (by rfl)⟩

/-- A nameless, unknown-diameter, non-hazardous NEO used as concrete test
data below. -/
def sampleNeo : Neo := ⟨"433", Option.none, PyFloat.nan, false⟩

/-- A close approach of `sampleNeo` at a given time, used as concrete test
data below. -/
def approachAt (t : DateTime) : Approach :=
  ⟨t, PyFloat.val 1, PyFloat.val 1, sampleNeo⟩

/-- C5: `create_filters` with all ten criteria `None` returns the empty
filter collection, while `create_filters` with only `hazardous = False`
returns exactly one filter — the hazardous equality filter with reference
value False — and calling that filter on any approach returns the negation
of the linked NEO's hazardous flag: it rejects hazardous approaches and
accepts non-hazardous ones. -/
theorem create_filters_spec :
    create_filters Option.none Option.none Option.none Option.none
        Option.none Option.none Option.none Option.none Option.none
        Option.none = [] ∧
    create_filters Option.none Option.none Option.none Option.none
        Option.none Option.none Option.none Option.none Option.none
        (some false) = [⟨.hazF, .eq, .bool false⟩] ∧
    (∀ a : Approach,
      AttributeFilter.call ⟨.hazF, .eq, .bool false⟩ a =
        .ok (!a.neo.hazardous)) := by
  refine ⟨rfl, rfl, ?_⟩
  intro a
  cases h : a.neo.hazardous <;>
    simp [AttributeFilter.call, AttributeFilter.get, applyOp, h]

/-- C7: calling a filter whose class is the base `AttributeFilter` — whose
attribute-extraction rule is undefined — on any close approach, with any
comparator and any reference value, raises `UnsupportedCriterionError`
rather than returning false. -/
theorem base_filter_raises (op : CmpOp) (v : FVal) (a : Approach) :
    AttributeFilter.call ⟨.attrF, op, v⟩ a =
      .error .unsupportedCriterion := by
  rfl

/-- C8: date filters compare at calendar-date granularity — the
date-equality filter for day D returns true on an approach exactly when the
approach's time truncated to its date equals D, and the start-date and
end-date filters are inclusive greater-or-equal and less-or-equal bounds on
that date (`dateLe` is reflexive, so the bounds are inclusive);
`create_filters` builds exactly these three date filters; concretely, the
day 2020-01-01 equality filter matches time 2020-01-01 13:45 and rejects
time 2020-01-02 00:01. -/
theorem date_filter_spec :
    (∀ (a : Approach) (D : Date),
      AttributeFilter.call ⟨.dateF, .eq, .date D⟩ a =
          .ok (decide (a.time.date = D)) ∧
        AttributeFilter.call ⟨.dateF, .ge, .date D⟩ a =
          .ok (dateLe D a.time.date) ∧
        AttributeFilter.call ⟨.dateF, .le, .date D⟩ a =
          .ok (dateLe a.time.date D)) ∧
    (∀ D : Date, dateLe D D = true) ∧
    (∀ D1 D2 D3 : Date,
      create_filters (some D1) (some D2) (some D3) Option.none Option.none
          Option.none Option.none Option.none Option.none Option.none =
        [⟨.dateF, .eq, .date D1⟩, ⟨.dateF, .ge, .date D2⟩,
         ⟨.dateF, .le, .date D3⟩]) ∧
    AttributeFilter.call ⟨.dateF, .eq, .date ⟨2020, 1, 1⟩⟩
        (approachAt ⟨⟨2020, 1, 1⟩, 13, 45⟩) = .ok true ∧
    AttributeFilter.call ⟨.dateF, .eq, .date ⟨2020, 1, 1⟩⟩
        (approachAt ⟨⟨2020, 1, 2⟩, 0, 1⟩) = .ok false := by
  refine ⟨fun a D => ⟨rfl, rfl, rfl⟩, ?_, fun D1 D2 D3 => rfl, by rfl, by rfl⟩
  intro D
  simp [dateLe]

/-- C6 (the query method is modelled from the spec, its module being
absent from the sources): `query` yields exactly those close approaches
for which every filter in the collection evaluates to true — equivalently,
it is the order-preserving filtering of the database's ordered collection
by the conjunctive match test — with zero filters it yields every record,
and its output is always an order-preserving subsequence of the input. -/
theorem query_spec :
    (∀ (approaches : List Approach) (fs : List AttributeFilter),
      query approaches fs = approaches.filter (fun a => matchesAll fs a)) ∧
    (∀ approaches : List Approach, query approaches [] = approaches) ∧
    (∀ (approaches : List Approach) (fs : List AttributeFilter),
      (query approaches fs).Sublist approaches) := by
  have hmain : ∀ (fs : List AttributeFilter) (as2 : List Approach),
      query as2 fs = as2.filter (fun a => matchesAll fs a) := by
    intro fs as2
    induction as2 with
    | nil => rfl
    | cons a rest ih =>
        by_cases h : matchesAll fs a = true
        · simp [query, List.filter_cons, h, ih]
        · simp [query, List.filter_cons, h, ih]
  refine ⟨fun as2 fs => hmain fs as2, ?_, ?_⟩
  · intro as2
    rw [hmain]
    simp [matchesAll]
  · intro as2 fs
    rw [hmain]
    exact List.filter_sublist _

/-- C9: every CSV row written by the row-oriented export has the fixed
column order datetime_utc, distance_au, velocity_km_s, designation, name,
diameter_km, potentially_hazardous; a missing NEO name serializes as the
empty string, a NaN diameter is written as the NaN marker, and the
hazardous flag is written as the literal string "True" or "False". -/
theorem write_row_spec (a : Approach) :
    (writeRow a).map Prod.fst = fieldnames ∧
    (a.neo.name = Option.none →
      lookupCell (writeRow a) "name" = some (.str "")) ∧
    (a.neo.diameter = PyFloat.nan →
      lookupCell (writeRow a) "diameter_km" = some (.num PyFloat.nan)) ∧
    lookupCell (writeRow a) "potentially_hazardous" =
      some (.str (if a.neo.hazardous then "True" else "False")) := by
  obtain ⟨t, dist, vel, neo⟩ := a
  obtain ⟨des, nm, diam, haz⟩ := neo
  refine ⟨rfl, ?_, ?_, ?_⟩
  · intro h
    simp only [] at h
    subst h
    rfl
  · intro h
    simp only [] at h
    subst h
    rfl
  · cases haz <;> rfl

/-- C9 witness: `write_row_spec` at a concrete close approach whose NEO
has no name, an unknown (NaN) diameter and hazardous flag False. -/
theorem write_row_spec_witness :
    lookupCell (writeRow (approachAt ⟨⟨2020, 1, 1⟩, 13, 45⟩)) "name" =
        some (.str "") ∧
    lookupCell (writeRow (approachAt ⟨⟨2020, 1, 1⟩, 13, 45⟩))
        "diameter_km" = some (.num PyFloat.nan) ∧
    lookupCell (writeRow (approachAt ⟨⟨2020, 1, 1⟩, 13, 45⟩))
        "potentially_hazardous" = some (.str "False") :=
  ⟨(write_row_spec _).2.1 rfl, (write_row_spec _).2.2.1 rfl,
   (write_row_spec _).2.2.2⟩

end NEO
